import Mathlib

/-!
Shallow embedding of the BusTub-style buffer pool manager
(src/buffer/buffer_pool_manager.cpp) and its LRU replacer
(src/buffer/lru_replacer.cpp).

Frames are indexed by natural numbers; page ids are integers with the
sentinel `INVALID_PAGE_ID = -1`.  The `std::unordered_map` page table is
modelled as an association list with unique keys; crucially, the C++
`operator[]` (which default-inserts the value `0` for an absent key) is
modelled faithfully by `ptBracket`, because `DeletePageImpl` relies on it
after having erased the key.  The external disk manager is modelled as a
record that logs the calls the buffer pool makes into it.
-/

set_option maxRecDepth 2048

namespace BufferPool

abbrev FrameId := Nat
abbrev PageId := Int

def INVALID_PAGE_ID : PageId := -1

def PAGE_SIZE : Nat := 4096

abbrev PageData := List Nat

def zeroData : PageData := List.replicate PAGE_SIZE 0

/-- Modelled from the spec: the `Page` class (its header is not part of
src/).  "allocate `pool_size` zeroed frames"; free-list frames have
`page_id == INVALID`, `pin_count == 0`, `is_dirty == false`. -/
structure Page where
  page_id : PageId := INVALID_PAGE_ID
  pin_count : Nat := 0
  is_dirty : Bool := false
  data : PageData := zeroData
deriving Repr, DecidableEq

def defaultPage : Page := {}

/-- LRU replacer state (src/buffer/lru_replacer.cpp).  `cacheList` has the
most-recently-unpinned frame at the front and the victim at the back; the
auxiliary `cacheIndex` map of the source only provides O(1) lookup, so the
tracked set is exactly the members of `cacheList`. -/
structure LRUReplacer where
  cacheList : List FrameId
deriving Repr, DecidableEq

/-- `LRUReplacer::Victim`: if the cache is non-empty, remove and return the
back element; otherwise report failure and leave the state unchanged. -/
def LRUReplacer.victim (r : LRUReplacer) : Option FrameId × LRUReplacer :=
  match r.cacheList.getLast? with
  | some f => (some f, { cacheList := r.cacheList.dropLast })
  | none => (none, r)

/-- `LRUReplacer::Pin`: if the frame is present in the cache, erase it. -/
def LRUReplacer.pin (r : LRUReplacer) (f : FrameId) : LRUReplacer :=
  if f ∈ r.cacheList then { cacheList := r.cacheList.erase f } else r

/-- `LRUReplacer::Unpin`: if the frame is not present in the cache, push it
to the front; otherwise do nothing. -/
def LRUReplacer.unpin (r : LRUReplacer) (f : FrameId) : LRUReplacer :=
  if f ∈ r.cacheList then r else { cacheList := f :: r.cacheList }

/-- `LRUReplacer::Size`. -/
def LRUReplacer.size (r : LRUReplacer) : Nat := r.cacheList.length

/-- Modelled from the spec: the external disk manager (an external
collaborator, §6).  `allocate_page` hands out consecutive ids; the log
fields record the calls the buffer pool makes, so that call ordering and
call counts are observable in the model. -/
structure DiskManager where
  next_page_id : PageId := 0
  store : List (PageId × PageData) := []
  allocLog : List PageId := []
  writeLog : List PageId := []
  deallocLog : List PageId := []
deriving Repr, DecidableEq

def DiskManager.allocatePage (dm : DiskManager) : PageId × DiskManager :=
  (dm.next_page_id,
   { dm with next_page_id := dm.next_page_id + 1,
             allocLog := dm.allocLog ++ [dm.next_page_id] })

def DiskManager.writePage (dm : DiskManager) (p : PageId) (d : PageData) : DiskManager :=
  { dm with store := (p, d) :: dm.store, writeLog := dm.writeLog ++ [p] }

def DiskManager.readPage (dm : DiskManager) (p : PageId) : PageData :=
  match dm.store.lookup p with
  | some d => d
  | none => zeroData

def DiskManager.deallocatePage (dm : DiskManager) (p : PageId) : DiskManager :=
  { dm with deallocLog := dm.deallocLog ++ [p] }

/-- Association-list lookup, modelling `page_table_.find`. -/
def ptFind (pt : List (PageId × FrameId)) (p : PageId) : Option FrameId :=
  match pt with
  | [] => none
  | (q, f) :: rest => if q = p then some f else ptFind rest p

/-- `page_table_.erase(p)`: remove the entry with key `p`. -/
def ptErase (pt : List (PageId × FrameId)) (p : PageId) : List (PageId × FrameId) :=
  pt.filter (fun e => e.1 ≠ p)

/-- `page_table_.insert({p, f})`. -/
def ptInsert (pt : List (PageId × FrameId)) (p : PageId) (f : FrameId) :
    List (PageId × FrameId) :=
  pt ++ [(p, f)]

/-- `page_table_[p]`, the C++ `unordered_map::operator[]`: return the mapped
frame if the key is present, otherwise default-insert the value `0` (a
value-initialised `frame_id_t`) and return it. -/
def ptBracket (pt : List (PageId × FrameId)) (p : PageId) :
    FrameId × List (PageId × FrameId) :=
  match ptFind pt p with
  | some f => (f, pt)
  | none => (0, pt ++ [(p, 0)])

/-- Read `pages_[f]`. -/
def frameGet (pages : List Page) (f : FrameId) : Page :=
  pages.getD f defaultPage

/-- Write `pages_[f]`. -/
def frameSet (pages : List Page) (f : FrameId) (pg : Page) : List Page :=
  pages.set f pg

/-- The whole buffer pool manager state. -/
structure BufferPoolManager where
  pool_size : Nat
  pages : List Page
  replacer : LRUReplacer
  free_list : List FrameId
  page_table : List (PageId × FrameId)
  disk : DiskManager
deriving Repr, DecidableEq

/-- `BufferPoolManager::BufferPoolManager`: `pool_size` zeroed frames, free
list `[0, 1, …, pool_size-1]`, empty page table, empty replacer. -/
def mkBufferPoolManager (pool_size : Nat) (disk : DiskManager) : BufferPoolManager :=
  { pool_size := pool_size,
    pages := List.replicate pool_size defaultPage,
    replacer := { cacheList := [] },
    free_list := List.range pool_size,
    page_table := [],
    disk := disk }

/-- `BufferPoolManager::FlushPageImpl`: if the page is cached, write it back
when dirty (clearing the flag) and return `true`; otherwise return
`false`. -/
def flushPage (bpm : BufferPoolManager) (page_id : PageId) :
    Bool × BufferPoolManager :=
  match ptFind bpm.page_table page_id with
  | some f =>
    let p := frameGet bpm.pages f
    if p.is_dirty then
      (true, { bpm with disk := bpm.disk.writePage page_id p.data,
                        pages := frameSet bpm.pages f { p with is_dirty := false } })
    else
      (true, bpm)
  | none => (false, bpm)

/-- The identical frame-acquisition code of `FetchPageImpl` (lines 53-76)
and `NewPageImpl` (lines 150-168): take the front of the free list if any;
otherwise ask the replacer for a victim, write the victim back if dirty and
erase its old page-table entry; otherwise fail. -/
def acquireFrame (bpm : BufferPoolManager) : Option FrameId × BufferPoolManager :=
  match bpm.free_list with
  | f :: rest => (some f, { bpm with free_list := rest })
  | [] =>
    match bpm.replacer.victim with
    | (some f, r) =>
      let bpm1 := { bpm with replacer := r }
      let p := frameGet bpm1.pages f
      let bpm2 :=
        if p.is_dirty then
          let bpmF := (flushPage bpm1 p.page_id).2
          let pF := frameGet bpmF.pages f
          { bpmF with pages := frameSet bpmF.pages f { pF with is_dirty := false } }
        else bpm1
      let p2 := frameGet bpm2.pages f
      (some f, { bpm2 with page_table := ptErase bpm2.page_table p2.page_id })
    | (none, _) => (none, bpm)

/-- `BufferPoolManager::FetchPageImpl`.  On a hit, pin the frame in the
replacer and bump the pin count.  On a miss, acquire a frame, zero it, read
the page from disk, install the metadata and the page-table entry. -/
def fetchPage (bpm : BufferPoolManager) (page_id : PageId) :
    Option FrameId × BufferPoolManager :=
  match ptFind bpm.page_table page_id with
  | some f =>
    let p := frameGet bpm.pages f
    (some f, { bpm with replacer := bpm.replacer.pin f,
                        pages := frameSet bpm.pages f { p with pin_count := p.pin_count + 1 } })
  | none =>
    match acquireFrame bpm with
    | (some f, bpm1) =>
      let p := frameGet bpm1.pages f
      let pg0 := { p with data := zeroData }
      let pg1 := { pg0 with data := bpm1.disk.readPage page_id }
      let pg2 := { pg1 with page_id := page_id, pin_count := 1, is_dirty := false }
      (some f, { bpm1 with pages := frameSet bpm1.pages f pg2,
                           page_table := ptInsert bpm1.page_table page_id f,
                           replacer := bpm1.replacer.pin f })
    | (none, bpm1) => (none, bpm1)

/-- `BufferPoolManager::UnpinPageImpl`.  Note line 104 of the source:
`p->is_dirty_ = is_dirty;` is a plain assignment, not an OR. -/
def unpinPage (bpm : BufferPoolManager) (page_id : PageId) (is_dirty : Bool) :
    Bool × BufferPoolManager :=
  match ptFind bpm.page_table page_id with
  | some f =>
    let p := frameGet bpm.pages f
    if p.pin_count > 0 then
      let p1 := { p with pin_count := p.pin_count - 1, is_dirty := is_dirty }
      let bpm1 := { bpm with pages := frameSet bpm.pages f p1 }
      if p1.pin_count = 0 then
        (true, { bpm1 with replacer := bpm1.replacer.unpin f })
      else
        (true, bpm1)
    else
      (false, bpm)
  | none => (false, bpm)

/-- `BufferPoolManager::NewPageImpl`.  Acquire a frame first; only then call
`AllocatePage`, install the metadata and the page-table entry. -/
def newPage (bpm : BufferPoolManager) :
    Option (PageId × FrameId) × BufferPoolManager :=
  match acquireFrame bpm with
  | (some f, bpm1) =>
    let alloc := bpm1.disk.allocatePage
    let pid := alloc.1
    let bpm2 := { bpm1 with disk := alloc.2 }
    let p := frameGet bpm2.pages f
    let pg := { p with page_id := pid, data := zeroData, pin_count := 1, is_dirty := false }
    (some (pid, f), { bpm2 with pages := frameSet bpm2.pages f pg,
                                page_table := ptInsert bpm2.page_table pid f,
                                replacer := bpm2.replacer.pin f })
  | (none, bpm1) => (none, bpm1)

/-- `BufferPoolManager::DeletePageImpl`.  Deallocate on disk first.  If the
page is cached and unpinned: erase the frame's stored page id from the
table, reset the frame, and then — line 212 of the source —
`free_list_.push_back(page_table_[page_id])`, which after the erase
default-inserts `{page_id → 0}` and pushes frame `0`. -/
def deletePage (bpm : BufferPoolManager) (page_id : PageId) :
    Bool × BufferPoolManager :=
  let bpm0 := { bpm with disk := bpm.disk.deallocatePage page_id }
  match ptFind bpm0.page_table page_id with
  | none => (true, bpm0)
  | some f =>
    let p := frameGet bpm0.pages f
    if p.pin_count > 0 then
      (false, bpm0)
    else
      let pt1 := ptErase bpm0.page_table p.page_id
      let p1 := { p with data := zeroData, page_id := INVALID_PAGE_ID,
                         is_dirty := false, pin_count := 0 }
      let bpm1 := { bpm0 with page_table := pt1, pages := frameSet bpm0.pages f p1 }
      let br := ptBracket bpm1.page_table page_id
      (true, { bpm1 with page_table := br.2, free_list := bpm1.free_list ++ [br.1] })

/-- `BufferPoolManager::FlushAllPagesImpl`: for every frame index `ctr`
below `pool_size`, call `FlushPageImpl(pages_[ctr].page_id_)`. -/
def flushAll (bpm : BufferPoolManager) : BufferPoolManager :=
  (List.range bpm.pool_size).foldl
    (fun s ctr => (flushPage s (frameGet s.pages ctr).page_id).2) bpm

/-! ### Generic list lemmas used by the frame-array reasoning -/

theorem listGetD_set_self {α : Type} (l : List α) (i : Nat) (a d : α)
    (h : i < l.length) : (l.set i a).getD i d = a := by
  induction l generalizing i with
  | nil => simp at h
  | cons x xs ih =>
    cases i with
    | zero => rfl
    | succ n => simpa using ih n (by simpa using h)

theorem listGetD_set_ne {α : Type} (l : List α) (i j : Nat) (a d : α)
    (h : i ≠ j) : (l.set i a).getD j d = l.getD j d := by
  induction l generalizing i j with
  | nil => simp
  | cons x xs ih =>
    cases i with
    | zero =>
      cases j with
      | zero => exact absurd rfl h
      | succ m => simp
    | succ n =>
      cases j with
      | zero => simp
      | succ m => simpa using ih n m (fun e => h (by rw [e]))

theorem listGetD_length_le {α : Type} (l : List α) (i : Nat) (d : α)
    (h : l.length ≤ i) : l.getD i d = d := by
  induction l generalizing i with
  | nil => cases i <;> rfl
  | cons x xs ih =>
    cases i with
    | zero => simp at h
    | succ n => simpa using ih n (by simpa using h)

theorem listSet_length_le {α : Type} (l : List α) (i : Nat) (a : α)
    (h : l.length ≤ i) : l.set i a = l := by
  induction l generalizing i with
  | nil => rfl
  | cons x xs ih =>
    cases i with
    | zero => simp at h
    | succ n => simpa using ih n (by simpa using h)

/-! ### Concrete runs exhibiting the delete/unpin bugs -/

/-- Pool of one frame after `new_page()→p0`, `unpin_page(p0, true)`,
`fetch_page(p0)`: page 0 is cached in frame 0 with `pin_count = 1` and
`is_dirty = true`. -/
def unpinBugPre : BufferPoolManager :=
  (fetchPage (unpinPage (newPage (mkBufferPoolManager 1 {})).2 0 true).2 0).2

/-- Pool of two frames after `new_page()→p0` (frame 0), `new_page()→p1`
(frame 1), `unpin_page(p1, false)`: page 1 is cached in frame 1 with
`pin_count = 0`, and frame 1 is tracked by the replacer. -/
def delBugPre : BufferPoolManager :=
  (unpinPage (newPage (newPage (mkBufferPoolManager 2 {})).2).2 1 false).2

/-- Pool of one frame after `new_page()→p0`, `unpin_page(p0, false)`,
`delete_page(p0)`. -/
def delBugState : BufferPoolManager :=
  (deletePage (unpinPage (newPage (mkBufferPoolManager 1 {})).2 0 false).2 0).2

/-! ### Claim theorems -/

/-- C1: the claim says `unpin_page(p, d)` ORs `d` into the dirty flag, so a
dirty frame stays dirty after `unpin_page(p, false)`.  The code instead
assigns (`p->is_dirty_ = is_dirty;`, line 104): starting from the reachable
state `unpinBugPre`, whose frame 0 is dirty with one pin, `unpin_page(0,
false)` succeeds, decrements the pin count to 0, and clears the dirty flag
— the deferred write-back of page 0 is lost. -/
theorem C1_unpin_overwrites_dirty :
    (frameGet unpinBugPre.pages 0).is_dirty = true ∧
    (frameGet unpinBugPre.pages 0).pin_count = 1 ∧
    (unpinPage unpinBugPre 0 false).1 = true ∧
    (frameGet (unpinPage unpinBugPre 0 false).2.pages 0).pin_count = 0 ∧
    (frameGet (unpinPage unpinBugPre 0 false).2.pages 0).is_dirty = false := by
  decide

/-- C2: the claim says `delete_page(p)` on a cached, unpinned page removes
`p` from the page table, removes its frame from the replacer, and appends
that frame to the free list.  In `delBugPre`, page 1 is cached in frame 1
with pin count 0; the code's `free_list_.push_back(page_table_[page_id])`
after the erase default-inserts `{1 → 0}` back into the page table and
appends frame 0 (not frame 1) to the free list, and frame 1 is still
tracked by the replacer. -/
theorem C2_delete_page_frame_bug :
    ptFind delBugPre.page_table 1 = some 1 ∧
    (frameGet delBugPre.pages 1).pin_count = 0 ∧
    (deletePage delBugPre 1).1 = true ∧
    ptFind (deletePage delBugPre 1).2.page_table 1 = some 0 ∧
    (deletePage delBugPre 1).2.free_list = [0] ∧
    (deletePage delBugPre 1).2.replacer.cacheList = [1] ∧
    frameGet (deletePage delBugPre 1).2.pages 1 = defaultPage := by
  refine ⟨by decide, by decide, by decide, by decide, by decide, by decide, rfl⟩

/-- C3: the claim says `|free list| + |page table| = pool_size` after every
public operation.  After `new_page()→p0`, `unpin_page(p0, false)`,
`delete_page(p0)` on a pool of size 1, the free list has one entry and the
page table has one entry (the `{0 → 0}` ghost default-inserted by
`page_table_[page_id]`), so the sum is 2 ≠ 1. -/
theorem C3_capacity_violated :
    delBugState.free_list.length + delBugState.page_table.length = 2 ∧
    delBugState.pool_size = 1 := by
  decide

/-- C4: the claim says every frame appears in at most one of the free list
and the replacer.  After `new_page()→p0`, `unpin_page(p0, false)`,
`delete_page(p0)` on a pool of size 1, frame 0 is in the free list while
the replacer (never told about the delete) still tracks frame 0. -/
theorem C4_disjointness_violated :
    0 ∈ delBugState.free_list ∧ 0 ∈ delBugState.replacer.cacheList := by
  decide

/-- When the frame-acquisition code fails, it has changed nothing: the
free list was empty and a failed `Victim` call leaves the replacer as it
was. -/
theorem acquireFrame_fail_eq (s : BufferPoolManager)
    (h : (acquireFrame s).1 = none) : (acquireFrame s).2 = s := by
  rcases hfl : s.free_list with _ | ⟨f, rest⟩
  · rcases hv : s.replacer.victim with ⟨o, r⟩
    cases o with
    | some f => simp [acquireFrame, hfl, hv] at h
    | none => simp [acquireFrame, hfl, hv]
  · simp [acquireFrame, hfl] at h

/-- C5: `new_page` secures a frame before calling `allocate_page`.  When
the free list is empty and the replacer tracks nothing, `new_page` returns
"none" and the whole state — in particular the disk manager, hence its
allocation log — is untouched; and in general a failed `new_page` leaves
the disk manager untouched, so no page identifier is consumed. -/
theorem C5_newPage_alloc_after_frame (bpm s : BufferPoolManager)
    (h1 : bpm.free_list = []) (h2 : bpm.replacer.cacheList = []) :
    ((newPage bpm).1 = none ∧ (newPage bpm).2 = bpm) ∧
    ((newPage s).1 = none → (newPage s).2.disk = s.disk) := by
  constructor
  · have ha : acquireFrame bpm = (none, bpm) := by
      simp [acquireFrame, h1, LRUReplacer.victim, h2]
    simp [newPage, ha]
  · intro hn
    rcases hA : acquireFrame s with ⟨o, s1⟩
    cases o with
    | some f => simp [newPage, hA] at hn
    | none =>
      have he : s1 = s := by
        have := acquireFrame_fail_eq s (by rw [hA])
        rwa [hA] at this
      simp [newPage, hA, he]

/-- C5 witness: a pool of size zero has an empty free list and an empty
replacer, so `new_page` fails without touching the disk manager. -/
theorem C5_witness :
    ((newPage (mkBufferPoolManager 0 {})).1 = none ∧
     (newPage (mkBufferPoolManager 0 {})).2 = mkBufferPoolManager 0 {}) ∧
    (newPage (mkBufferPoolManager 0 {})).2.disk = (mkBufferPoolManager 0 {}).disk :=
  ⟨(C5_newPage_alloc_after_frame (mkBufferPoolManager 0 {})
      (mkBufferPoolManager 0 {}) rfl rfl).1,
   (C5_newPage_alloc_after_frame (mkBufferPoolManager 0 {})
      (mkBufferPoolManager 0 {}) rfl rfl).2 (by decide)⟩

/-- C6: `Unpin` of a frame that the replacer already tracks is a no-op —
the state (hence tracked set, order and size) is literally unchanged — and
two consecutive `Unpin` calls on any frame leave the size unchanged. -/
theorem C6_unpin_tracked_noop (r : LRUReplacer) (f g : FrameId)
    (h : f ∈ r.cacheList) :
    r.unpin f = r ∧ ((r.unpin g).unpin g).size = (r.unpin g).size := by
  have noop : ∀ (s : LRUReplacer) (x : FrameId), x ∈ s.cacheList → s.unpin x = s := by
    intro s x hx
    unfold LRUReplacer.unpin
    rw [if_pos hx]
  refine ⟨noop r f h, ?_⟩
  have hg : g ∈ (r.unpin g).cacheList := by
    unfold LRUReplacer.unpin
    by_cases hc : g ∈ r.cacheList
    · rw [if_pos hc]; exact hc
    · rw [if_neg hc]; exact List.mem_cons_self g r.cacheList
  rw [noop (r.unpin g) g hg]

/-- C6 witness at the tracked frame 3 (and arbitrary frame 5). -/
theorem C6_witness :
    (LRUReplacer.mk [3]).unpin 3 = LRUReplacer.mk [3] ∧
    (((LRUReplacer.mk [3]).unpin 5).unpin 5).size = ((LRUReplacer.mk [3]).unpin 5).size :=
  C6_unpin_tracked_noop (LRUReplacer.mk [3]) 3 5 (by decide)

/-- The replacer after unpinning `f0`, then `f1`, then `f2`, starting from
empty. -/
def unpinSeq (f0 f1 f2 : FrameId) : LRUReplacer :=
  (((LRUReplacer.mk []).unpin f0).unpin f1).unpin f2

/-- C7: after unpinning three distinct frames `f0, f1, f2` into an empty
replacer, the next three `Victim` calls return `f0`, then `f1`, then `f2`,
each no longer tracked afterwards; `Victim` on an empty replacer returns
"none". -/
theorem C7_lru_victim_order (f0 f1 f2 : FrameId)
    (h01 : f0 ≠ f1) (h02 : f0 ≠ f2) (h12 : f1 ≠ f2) :
    (unpinSeq f0 f1 f2).victim.1 = some f0 ∧
    f0 ∉ (unpinSeq f0 f1 f2).victim.2.cacheList ∧
    (unpinSeq f0 f1 f2).victim.2.victim.1 = some f1 ∧
    f1 ∉ (unpinSeq f0 f1 f2).victim.2.victim.2.cacheList ∧
    (unpinSeq f0 f1 f2).victim.2.victim.2.victim.1 = some f2 ∧
    f2 ∉ (unpinSeq f0 f1 f2).victim.2.victim.2.victim.2.cacheList ∧
    (LRUReplacer.mk []).victim.1 = none := by
  have e0 : (LRUReplacer.mk []).unpin f0 = LRUReplacer.mk [f0] := by
    simp [LRUReplacer.unpin]
  have e1 : (LRUReplacer.mk [f0]).unpin f1 = LRUReplacer.mk [f1, f0] := by
    simp [LRUReplacer.unpin, Ne.symm h01]
  have e2 : (LRUReplacer.mk [f1, f0]).unpin f2 = LRUReplacer.mk [f2, f1, f0] := by
    simp [LRUReplacer.unpin, Ne.symm h02, Ne.symm h12]
  have eSeq : unpinSeq f0 f1 f2 = LRUReplacer.mk [f2, f1, f0] := by
    unfold unpinSeq
    rw [e0, e1, e2]
  have v1 : (LRUReplacer.mk [f2, f1, f0]).victim = (some f0, LRUReplacer.mk [f2, f1]) := rfl
  have v2 : (LRUReplacer.mk [f2, f1]).victim = (some f1, LRUReplacer.mk [f2]) := rfl
  have v3 : (LRUReplacer.mk [f2]).victim = (some f2, LRUReplacer.mk []) := rfl
  rw [eSeq, v1, v2, v3]
  simp [h01, h02, h12, LRUReplacer.victim]

/-- C7 witness at the distinct frames 0, 1, 2. -/
theorem C7_witness :
    (unpinSeq 0 1 2).victim.1 = some 0 ∧
    0 ∉ (unpinSeq 0 1 2).victim.2.cacheList ∧
    (unpinSeq 0 1 2).victim.2.victim.1 = some 1 ∧
    1 ∉ (unpinSeq 0 1 2).victim.2.victim.2.cacheList ∧
    (unpinSeq 0 1 2).victim.2.victim.2.victim.1 = some 2 ∧
    2 ∉ (unpinSeq 0 1 2).victim.2.victim.2.victim.2.cacheList ∧
    (LRUReplacer.mk []).victim.1 = none :=
  C7_lru_victim_order 0 1 2 (by decide) (by decide) (by decide)

/-! ### Case equations for flushPage -/

theorem flushPage_not_found (bpm : BufferPoolManager) (p : PageId)
    (hpt : ptFind bpm.page_table p = none) : flushPage bpm p = (false, bpm) := by
  simp [flushPage, hpt]

theorem flushPage_found_clean (bpm : BufferPoolManager) (p : PageId) (f : FrameId)
    (hpt : ptFind bpm.page_table p = some f)
    (hd : (frameGet bpm.pages f).is_dirty = false) : flushPage bpm p = (true, bpm) := by
  simp [flushPage, hpt, hd]

theorem flushPage_found_dirty (bpm : BufferPoolManager) (p : PageId) (f : FrameId)
    (hpt : ptFind bpm.page_table p = some f)
    (hd : (frameGet bpm.pages f).is_dirty = true) :
    flushPage bpm p =
      (true, { bpm with
                 disk := bpm.disk.writePage p (frameGet bpm.pages f).data,
                 pages := frameSet bpm.pages f
                   { frameGet bpm.pages f with is_dirty := false } }) := by
  simp [flushPage, hpt, hd]

/-- C8: `flush_page(p)` returns `false` exactly when `p` is absent from the
page table and `true` otherwise; on a dirty cached frame it issues exactly
one `write_page(p, ·)` and clears the dirty flag; on a clean cached frame
it changes nothing; and it never changes any frame's pin count — a pinned
page may be flushed. -/
theorem C8_flushPage_contract (bpm : BufferPoolManager) (p : PageId)
    (f : FrameId) (i : Nat) :
    ((flushPage bpm p).1 = (ptFind bpm.page_table p).isSome) ∧
    (ptFind bpm.page_table p = some f → (frameGet bpm.pages f).is_dirty = true →
      (flushPage bpm p).2.disk.writeLog = bpm.disk.writeLog ++ [p] ∧
      (frameGet (flushPage bpm p).2.pages f).is_dirty = false) ∧
    (ptFind bpm.page_table p = some f → (frameGet bpm.pages f).is_dirty = false →
      (flushPage bpm p).2 = bpm) ∧
    (frameGet (flushPage bpm p).2.pages i).pin_count =
      (frameGet bpm.pages i).pin_count := by
  refine ⟨?_, ?_, ?_, ?_⟩
  · rcases hpt : ptFind bpm.page_table p with _ | g
    · rw [flushPage_not_found bpm p hpt]; rfl
    · cases hd : (frameGet bpm.pages g).is_dirty with
      | false => rw [flushPage_found_clean bpm p g hpt hd]; rfl
      | true => rw [flushPage_found_dirty bpm p g hpt hd]; rfl
  · intro hpt hd
    rw [flushPage_found_dirty bpm p f hpt hd]
    constructor
    · simp [DiskManager.writePage]
    · rcases Nat.lt_or_ge f bpm.pages.length with hf | hf
      · simp only [frameGet, frameSet]
        rw [listGetD_set_self _ _ _ _ hf]
      · exfalso
        simp only [frameGet] at hd
        rw [listGetD_length_le _ _ _ hf] at hd
        exact absurd hd (by decide)
  · intro hpt hd
    rw [flushPage_found_clean bpm p f hpt hd]
  · rcases hpt : ptFind bpm.page_table p with _ | g
    · rw [flushPage_not_found bpm p hpt]
    · cases hd : (frameGet bpm.pages g).is_dirty with
      | false => rw [flushPage_found_clean bpm p g hpt hd]
      | true =>
        rw [flushPage_found_dirty bpm p g hpt hd]
        by_cases hig : i = g
        · subst hig
          rcases Nat.lt_or_ge i bpm.pages.length with hl | hl
          · simp only [frameGet, frameSet]
            rw [listGetD_set_self _ _ _ _ hl]
          · simp only [frameGet, frameSet]
            rw [listSet_length_le _ _ _ hl]
        · simp only [frameGet, frameSet]
          rw [listGetD_set_ne _ _ _ _ _ (Ne.symm hig)]

/-- A cached dirty page held under two pins. -/
def flushDirtyState : BufferPoolManager :=
  { pool_size := 1,
    pages := [{ page_id := 4, pin_count := 2, is_dirty := true, data := zeroData }],
    replacer := LRUReplacer.mk [],
    free_list := [],
    page_table := [(4, 0)],
    disk := {} }

/-- C8 witness: flushing the dirty page 4, pinned twice, writes it back,
clears the flag and leaves the pin count alone. -/
theorem C8_witness :
    (flushPage flushDirtyState 4).1 = (ptFind flushDirtyState.page_table 4).isSome ∧
    (flushPage flushDirtyState 4).2.disk.writeLog = flushDirtyState.disk.writeLog ++ [4] ∧
    (frameGet (flushPage flushDirtyState 4).2.pages 0).is_dirty = false ∧
    (frameGet (flushPage flushDirtyState 4).2.pages 0).pin_count =
      (frameGet flushDirtyState.pages 0).pin_count :=
  ⟨(C8_flushPage_contract flushDirtyState 4 0 0).1,
   ((C8_flushPage_contract flushDirtyState 4 0 0).2.1 (by decide) (by decide)).1,
   ((C8_flushPage_contract flushDirtyState 4 0 0).2.1 (by decide) (by decide)).2,
   (C8_flushPage_contract flushDirtyState 4 0 0).2.2.2⟩

/-- C9: `delete_page` of an uncached page id returns `true`, still logs a
`deallocate_page(p)` call, and leaves the page table, free list, replacer
and every frame exactly as they were. -/
theorem C9_delete_uncached (bpm : BufferPoolManager) (p : PageId)
    (h : ptFind bpm.page_table p = none) :
    (deletePage bpm p).1 = true ∧
    (deletePage bpm p).2.page_table = bpm.page_table ∧
    (deletePage bpm p).2.free_list = bpm.free_list ∧
    (deletePage bpm p).2.replacer = bpm.replacer ∧
    (deletePage bpm p).2.pages = bpm.pages ∧
    (deletePage bpm p).2.disk = bpm.disk.deallocatePage p ∧
    (bpm.disk.deallocatePage p).deallocLog = bpm.disk.deallocLog ++ [p] := by
  simp [deletePage, h, DiskManager.deallocatePage]

/-- C9 witness: deleting the never-allocated page 5 from a fresh pool. -/
theorem C9_witness :
    (deletePage (mkBufferPoolManager 1 {}) 5).1 = true ∧
    (deletePage (mkBufferPoolManager 1 {}) 5).2.page_table =
      (mkBufferPoolManager 1 {}).page_table ∧
    (deletePage (mkBufferPoolManager 1 {}) 5).2.free_list =
      (mkBufferPoolManager 1 {}).free_list ∧
    (deletePage (mkBufferPoolManager 1 {}) 5).2.replacer =
      (mkBufferPoolManager 1 {}).replacer ∧
    (deletePage (mkBufferPoolManager 1 {}) 5).2.pages =
      (mkBufferPoolManager 1 {}).pages ∧
    (deletePage (mkBufferPoolManager 1 {}) 5).2.disk =
      (mkBufferPoolManager 1 {}).disk.deallocatePage 5 ∧
    ((mkBufferPoolManager 1 {}).disk.deallocatePage 5).deallocLog =
      (mkBufferPoolManager 1 {}).disk.deallocLog ++ [5] :=
  C9_delete_uncached (mkBufferPoolManager 1 {}) 5 (by decide)

/-! ### Flush operations only clear dirty flags -/

/-- The part of a frame that flushing must not touch. -/
def frameSk (pg : Page) : PageId × Nat × PageData := (pg.page_id, pg.pin_count, pg.data)

/-- The part of the pool state that flushing must not touch: page table,
free list, replacer, and every frame's page id, pin count and data. -/
def bpmSk (bpm : BufferPoolManager) :
    List (PageId × FrameId) × List FrameId × LRUReplacer ×
      List (PageId × Nat × PageData) :=
  (bpm.page_table, bpm.free_list, bpm.replacer, bpm.pages.map frameSk)

theorem map_frameSk_set (l : List Page) (i : Nat) (a : Page)
    (h : frameSk a = frameSk (l.getD i defaultPage)) :
    (l.set i a).map frameSk = l.map frameSk := by
  induction l generalizing i with
  | nil => simp
  | cons x xs ih =>
    cases i with
    | zero =>
      simp only [List.getD_cons_zero] at h
      simp [h]
    | succ n =>
      simp only [List.getD_cons_succ] at h
      simp [ih n h]

theorem flushPage_sk (bpm : BufferPoolManager) (p : PageId) :
    bpmSk (flushPage bpm p).2 = bpmSk bpm := by
  rcases hpt : ptFind bpm.page_table p with _ | f
  · rw [flushPage_not_found bpm p hpt]
  · cases hd : (frameGet bpm.pages f).is_dirty with
    | false => rw [flushPage_found_clean bpm p f hpt hd]
    | true =>
      rw [flushPage_found_dirty bpm p f hpt hd]
      exact congrArg (fun x => (bpm.page_table, bpm.free_list, bpm.replacer, x))
        (map_frameSk_set bpm.pages f _ rfl)

theorem flushPage_dirty_mono (bpm : BufferPoolManager) (p : PageId) (i : Nat)
    (h : (frameGet (flushPage bpm p).2.pages i).is_dirty = true) :
    (frameGet bpm.pages i).is_dirty = true := by
  rcases hpt : ptFind bpm.page_table p with _ | f
  · rw [flushPage_not_found bpm p hpt] at h; exact h
  · cases hd : (frameGet bpm.pages f).is_dirty with
    | false => rw [flushPage_found_clean bpm p f hpt hd] at h; exact h
    | true =>
      rw [flushPage_found_dirty bpm p f hpt hd] at h
      by_cases hif : i = f
      · subst hif
        rcases Nat.lt_or_ge i bpm.pages.length with hl | hl
        · simp only [frameGet, frameSet] at h
          rw [listGetD_set_self _ _ _ _ hl] at h
          simp at h
        · simp only [frameGet, frameSet] at h
          rw [listSet_length_le _ _ _ hl] at h
          exact h
      · simp only [frameGet, frameSet] at h
        rw [listGetD_set_ne _ _ _ _ _ (Ne.symm hif)] at h
        exact h

theorem flushFold_sk (l : List Nat) (s : BufferPoolManager) :
    bpmSk (l.foldl (fun t ctr => (flushPage t (frameGet t.pages ctr).page_id).2) s) =
      bpmSk s := by
  induction l generalizing s with
  | nil => rfl
  | cons x xs ih =>
    rw [List.foldl_cons]
    exact (ih _).trans (flushPage_sk s _)

theorem flushFold_dirty_mono (l : List Nat) (s : BufferPoolManager) (i : Nat)
    (h : (frameGet ((l.foldl
        (fun t ctr => (flushPage t (frameGet t.pages ctr).page_id).2) s)).pages i).is_dirty
        = true) :
    (frameGet s.pages i).is_dirty = true := by
  induction l generalizing s with
  | nil => exact h
  | cons x xs ih =>
    rw [List.foldl_cons] at h
    exact flushPage_dirty_mono s _ i (ih _ h)

/-- C10: `flush_page` and `flush_all` leave the page table, the free list,
the replacer, and every frame's page id, pin count and data unchanged
(`bpmSk`), and the only flag change they can make is clearing a dirty flag:
a frame that is dirty afterwards was dirty before. -/
theorem C10_flush_only_clears_dirty (bpm : BufferPoolManager) (p : PageId) (i : Nat) :
    bpmSk (flushPage bpm p).2 = bpmSk bpm ∧
    bpmSk (flushAll bpm) = bpmSk bpm ∧
    ((frameGet (flushPage bpm p).2.pages i).is_dirty = true →
      (frameGet bpm.pages i).is_dirty = true) ∧
    ((frameGet (flushAll bpm).pages i).is_dirty = true →
      (frameGet bpm.pages i).is_dirty = true) :=
  ⟨flushPage_sk bpm p,
   flushFold_sk (List.range bpm.pool_size) bpm,
   flushPage_dirty_mono bpm p i,
   fun h => flushFold_dirty_mono (List.range bpm.pool_size) bpm i h⟩

/-- A dirty frame whose page id is not in the page table, so no flush
touches it. -/
def dirtyOrphanState : BufferPoolManager :=
  { pool_size := 1,
    pages := [{ page_id := 9, pin_count := 0, is_dirty := true, data := zeroData }],
    replacer := LRUReplacer.mk [0],
    free_list := [],
    page_table := [],
    disk := {} }

/-- C10 witness: on `dirtyOrphanState`, `flush_page 7` and `flush_all`
preserve the skeleton, and the frame still dirty after `flush_all` was
dirty before. -/
theorem C10_witness :
    bpmSk (flushPage dirtyOrphanState 7).2 = bpmSk dirtyOrphanState ∧
    bpmSk (flushAll dirtyOrphanState) = bpmSk dirtyOrphanState ∧
    (frameGet dirtyOrphanState.pages 0).is_dirty = true :=
  ⟨(C10_flush_only_clears_dirty dirtyOrphanState 7 0).1,
   (C10_flush_only_clears_dirty dirtyOrphanState 7 0).2.1,
   (C10_flush_only_clears_dirty dirtyOrphanState 7 0).2.2.2 (by decide)⟩

end BufferPool
